import Mathlib

set_option maxRecDepth 8000

/-!
Verification development for the dbt snapshot (src/dbt/parser.py,
src/dbt/clients/jinja.py, src/dbt/adapters/default.py).

The Python code is embedded shallowly:

* Python dict values are modelled by `PVal`; dicts by association lists
  with Python-dict update semantics (assignment replaces in place,
  fresh keys append).
* Jinja templates are modelled in parsed form (`Tmpl`): literal text,
  calls of the context functions `ref` / `var` / `config`, and accesses
  to names that are not bound in the render context (a bare access, or
  an operation such as a call / arithmetic / comparison / indexing on
  such a name).  Rendering the parsed form mirrors what the sandboxed
  environment of src/dbt/clients/jinja.py does with the context that
  parser.py installs.
* Fallible Python code (raise) is modelled with `Except DbtErr`.
-/

/-- A Python value as it occurs in the dbt dictionaries: strings,
integers, booleans, `None`, and nested dicts. -/
inductive PVal where
  | str (s : String)
  | int (n : Nat)
  | bool (b : Bool)
  | null
  | table (entries : List (String × PVal))
  | list (xs : List PVal)
deriving BEq

/-- Python `str()` of a `PVal`, as used when a value is interpolated by
`str.format`.  Only the rendering of strings (bare) and of `None`
matters to the claims below; the other cases follow Python `str`. -/
def pvalStr : PVal → String
  | .str s => s
  | .int n => toString n
  | .bool b => if b then "True" else "False"
  | .null => "None"
  | .table _ => "<dict>"
  | .list _ => "<list>"

/-- Whether a `PVal` is a Python dict (`isinstance(x, dict)`). -/
def PVal.isTable : PVal → Bool
  | .table _ => true
  | _ => false

/-- A Python dict with string keys. -/
abbrev Dict := List (String × PVal)

/-- Python `d.get(k)` (first binding wins; our dicts never hold
duplicate keys). -/
def dictGet (d : Dict) (k : String) : Option PVal :=
  match d with
  | [] => none
  | (k', v) :: rest => if k' = k then some v else dictGet rest k

/-- Python `d.pop(k, None)` restricted to its effect on the dict:
removes the binding of `k` if present. -/
def dictErase (d : Dict) (k : String) : Dict :=
  match d with
  | [] => []
  | (k', v) :: rest => if k' = k then dictErase rest k else (k', v) :: dictErase rest k

/-- Python `d[k] = v`: replaces the value in place if the key exists,
otherwise appends the new binding (Python 3.7 dict order). -/
def dictSet (d : Dict) (k : String) (v : PVal) : Dict :=
  match d with
  | [] => [(k, v)]
  | (k', v') :: rest => if k' = k then (k, v) :: rest else (k', v') :: dictSet rest k v

/-- Python `d.update(e)`: assign every binding of `e` into `d`, in
order. -/
def dictUpdate (d e : Dict) : Dict :=
  e.foldl (fun acc kv => dictSet acc kv.1 kv.2) d

/-- Whether the pattern `p` is an initial run of `s` (character-wise). -/
def hasLead : List Char → List Char → Bool
  | [], _ => true
  | _ :: _, [] => false
  | p :: ps, c :: cs => p = c && hasLead ps cs

/-- Leftmost non-overlapping replacement of `pat` by `rep`, fuelled by
the length of the text (each step consumes at least one character). -/
def replaceFrom (pat rep : List Char) : Nat → List Char → List Char
  | _, [] => []
  | 0, s => s
  | fuel + 1, c :: cs =>
      if hasLead pat (c :: cs) then
        rep ++ replaceFrom pat rep fuel (List.drop pat.length (c :: cs))
      else c :: replaceFrom pat rep fuel cs

/-- Python `s.replace(pat, rep)` on character lists. -/
def listReplace (s pat rep : List Char) : List Char :=
  replaceFrom pat rep s.length s

theorem dictGet_dictErase (d : Dict) (k0 k : String) :
    dictGet (dictErase d k0) k = if k = k0 then none else dictGet d k := by
  induction d with
  | nil => simp [dictErase, dictGet]
  | cons kv rest ih =>
    obtain ⟨k', v⟩ := kv
    by_cases h1 : k' = k0
    · subst h1
      by_cases h2 : k = k'
      · subst h2
        simp [dictErase, dictGet, ih]
      · have h3 : ¬ k' = k := fun h => h2 h.symm
        simp [dictErase, dictGet, ih, h2, h3]
    · by_cases h2 : k' = k
      · subst h2
        simp [dictErase, dictGet, h1]
      · simp [dictErase, dictGet, h1, h2, ih]

/-!
## The template model

src/dbt/parser.py renders `raw_sql` through
`dbt.clients.jinja.get_rendered` with the context
`ref ↦ lambda *args: ''`, `var ↦ lambda *args: ''`,
`config ↦ __config(node, cfg)`, plus `target`/`this` placeholders.
A template is embedded in parsed form.
-/

/-- One item of a parsed Jinja template. -/
inductive TItem where
  /-- Literal text between expressions. -/
  | text (s : String)
  /-- A call of the context function `ref` with string arguments. -/
  | refCall (args : List String)
  /-- A call of the context function `var` with string arguments. -/
  | varCall (args : List String)
  /-- A call of the context function `config` with keyword options. -/
  | configCall (opts : Dict)
  /-- A bare access to a name the context does not bind: the sandboxed
  environment renders it as the empty string without raising. -/
  | undefName (n : String)
  /-- An operation (call, arithmetic, comparison, indexing, …) on a
  name the context does not bind. -/
  | undefOpp (n : String)

/-- A parsed Jinja template. -/
abbrev Tmpl := List TItem

/-- The raw template text an item came from, using the canonical
spelling that parse_schema_test itself generates for `ref`
expressions. -/
def itemText : TItem → String
  | .text s => s
  | .refCall args => "\x7b\x7bref('" ++ String.intercalate "','" args ++ "')\x7d\x7d"
  | .varCall args => "\x7b\x7bvar('" ++ String.intercalate "','" args ++ "')\x7d\x7d"
  | .configCall _ => "\x7b\x7bconfig(...)\x7d\x7d"
  | .undefName n => "\x7b\x7b " ++ n ++ " \x7d\x7d"
  | .undefOpp n => "\x7b\x7b " ++ n ++ "(...) \x7d\x7d"

/-- The raw text of a whole template. -/
def rawText (t : Tmpl) : String :=
  String.join (t.map itemText)

/-- The errors raised by the embedded code. -/
inductive DbtErr where
  /-- dbt.exceptions.raise_compiler_error(node, msg). -/
  | compilerError (node : String) (msg : String)
  /-- dbt.exceptions.ValidationException. -/
  | validationError (msg : String)
  /-- dbt.exceptions.ProgrammingException. -/
  | programmingError (msg : String)
  /-- A Python AttributeError (method access on None). -/
  | attributeError (msg : String)
  /-- A Python TypeError (here: a call with a keyword argument the
  callee does not declare). -/
  | typeError (msg : String)
deriving BEq

/-- What a render pass produces: the rendered string, the list of
`config(...)` option dicts captured in order, and the diagnostics
`(node name, variable name)` emitted by the silent-undefined callback
`cb` of src/dbt/clients/jinja.py. -/
structure RenderOut where
  out : String
  cfgCalls : List Dict
  diags : List (String × String)

/-- One step of rendering under the discovery context of `parse_node`:

* `ref` is `lambda *args: ''` — it contributes the empty string and
  records nothing (src/dbt/parser.py line 189);
* `var` likewise (line 191);
* `config` runs `cfg.update_in_model_config(opts)` as a side effect
  (lines 82-96); its return value `None` is printed by Jinja as "None";
* a bare unbound name renders as the empty string in both modes;
* an operation on an unbound name raises `UndefinedError` under the
  strict environment, and under the silent environment of
  `get_undefined_value` it invokes the callback with
  `(node, undefined name)` and yields a tolerant placeholder
  (written "None", the value `_fail_with_undefined_error` returns). -/
def renderStep (silent : Bool) (nodeName : String) (acc : RenderOut) :
    TItem → Except String RenderOut
  | .text s => .ok { acc with out := acc.out ++ s }
  | .refCall _ => .ok acc
  | .varCall _ => .ok acc
  | .configCall opts =>
      .ok { acc with out := acc.out ++ "None", cfgCalls := acc.cfgCalls ++ [opts] }
  | .undefName _ => .ok acc
  | .undefOpp n =>
      if silent then
        .ok { acc with out := acc.out ++ "None", diags := acc.diags ++ [(nodeName, n)] }
      else
        .error (n ++ " is undefined")

/-- Render a parsed template under the context `parse_node` builds. -/
def renderTmpl (silent : Bool) (nodeName : String) (t : Tmpl) :
    Except String RenderOut :=
  t.foldlM (renderStep silent nodeName) { out := "", cfgCalls := [], diags := [] }

/-- Embedding of `get_rendered` (src/dbt/clients/jinja.py lines 52-59):
builds the template (strict environment unless `silent_on_undefined`)
and renders it; a `TemplateSyntaxError` or `UndefinedError` is caught
and re-raised as a compiler error carrying the node identity. -/
def get_rendered (silent : Bool) (nodeName : String) (t : Tmpl) :
    Except DbtErr RenderOut :=
  match renderTmpl silent nodeName t with
  | .ok r => .ok r
  | .error e => .error (.compilerError nodeName e)

/-!
## The node parser (src/dbt/parser.py)
-/

/-- Modelled from the spec: the `NodeType` enum of dbt.utils is not in
src/.  Section 8 of the spec shows unique ids such as
`model.analytics.raw_orders` and `parse_schema_test` produces
`test.…` ids, fixing the string values. -/
def NodeType.Model : String := "model"

/-- Modelled from the spec: see `NodeType.Model`. -/
def NodeType.Test : String := "test"

/-- get_path (src/dbt/parser.py lines 66-67). -/
def get_path (resource_type package_name resource_name : String) : String :=
  resource_type ++ "." ++ package_name ++ "." ++ resource_name

/-- get_test_path (src/dbt/parser.py lines 74-75). -/
def get_test_path (package_name resource_name : String) : String :=
  get_path NodeType.Test package_name resource_name

/-- Modelled from the spec: `dbt.utils.split_path` is not in src/;
section 4.2 step 2 calls its output the directory segments of `path`
plus the filename, i.e. a split on `/`. -/
def split_path (path : String) : List String :=
  path.splitOn "/"

/-- Python `os.path.splitext(s)[0]`: the name without its last
extension. -/
def dropExt (s : String) : String :=
  let parts := s.splitOn "."
  if parts.length ≤ 1 then s
  else String.intercalate "." (parts.dropLast)

/-- get_fqn (src/dbt/parser.py lines 99-107): package name, the
directory segments of the path, the extras, then the basename without
extension.  `package_project_config.get('name')` is passed here as
`packageName`. -/
def get_fqn (path : String) (packageName : String) (extra : List String) :
    List String :=
  let parts := split_path path
  let nm := dropExt (parts.getLastD "")
  [packageName] ++ parts.dropLast ++ extra ++ [nm]

/-- A raw node definition as handed to `parse_node`: the keys that
load_and_parse_sql / parse_schema_test / parse_archives_from_project
put into the dict.  `config0` is the optional pre-existing `config`
entry (`node.get('config', {})`, present for archives). -/
structure UnparsedNode where
  name : String
  package_name : String
  path : String
  root_path : String
  resource_type : String
  raw_sql : Tmpl
  config0 : Dict := []

/-- The node dict as returned by `parse_node`.  `depends_on_nodes` and
`depends_on_m` are the two lists of the `depends_on` entry (the second
is the one keyed by the m-word in the source). -/
structure ParsedNode where
  name : String
  package_name : String
  path : String
  root_path : String
  resource_type : String
  raw_sql : Tmpl
  depends_on_nodes : List String
  depends_on_m : List String
  unique_id : String
  config : Dict
  empty : Bool
  fqn : List String
  tags : List String

/-- Modelled from the spec: `dbt.model.SourceConfig` is not in src/.
Section 3 describes it as a three-level override chain; the root and
package project defaults for the fqn are abstracted into the seed dict
`cfgSeed` a caller supplies, and `update_in_model_config` folds the
inline `config(...)` options on top, later calls winning. -/
def sourceConfigOut (cfgSeed : Dict) (cfgCalls : List Dict) : Dict :=
  cfgCalls.foldl dictUpdate cfgSeed

/-- Whether the trimmed raw template text is empty
(`len(node.get('raw_sql').strip()) == 0`). -/
def tmplEmpty (t : Tmpl) : Bool :=
  (rawText t).trim.isEmpty

/-- The render call of `parse_node` (src/dbt/parser.py lines
195-197): the source invokes
`dbt.clients.jinja.get_rendered(node.get('raw_sql'), context, node,
capture_macros=True)`, but the `get_rendered` of
src/dbt/clients/jinja.py (line 52) declares only
`(string, ctx, node=None, silent_on_undefined=False)`.  Python
therefore raises `TypeError` at this call site, unconditionally,
before `get_rendered`'s body — and hence any rendering, any
`ref`/`config` side effect, and any undefined-name handling — can
run.  The arguments the call would have passed are kept so the call
site reads like the source. -/
def parse_node_render (nodeName : String) (t : Tmpl) : Except DbtErr RenderOut :=
  let _ := (nodeName, t)
  .error (.typeError
    "get_rendered() got an unexpected keyword argument 'capture_macros'")

/-- Embedding of `parse_node` (src/dbt/parser.py lines 164-208).

* The node dict is deep-copied (value semantics) and `depends_on` is
  initialised to empty lists (lines 175-180).
* The context binds `ref`/`var` to `lambda *args: ''` (recording
  nothing), `config` to the SourceConfig updater, and
  `target`/`this` to placeholders (lines 187-193).
* The render call (lines 195-197) raises `TypeError` unconditionally,
  because it passes the keyword `capture_macros`, which the
  `get_rendered` of src/dbt/clients/jinja.py does not declare: see
  `parse_node_render`.  Consequently `parse_node` always propagates
  that error.
* The ok branch transcribes lines 199-208 (config merge, `unique_id`,
  `empty`, `fqn`, `tags`; `depends_on` keeps its initial empty lists
  because no context function writes to it), and is formally
  unreachable — the code after the raising call never runs. -/
def parse_node (node : UnparsedNode) (node_path : String)
    (packageName : String) (cfgSeed : Dict) (tags : List String)
    (fqn_extra : List String) : Except DbtErr ParsedNode :=
  let fqn := get_fqn node.path packageName fqn_extra
  match parse_node_render node.name node.raw_sql with
  | .error e => .error e
  | .ok r =>
      let config_dict := dictUpdate node.config0 (sourceConfigOut cfgSeed r.cfgCalls)
      .ok { name := node.name
            package_name := node.package_name
            path := node.path
            root_path := node.root_path
            resource_type := node.resource_type
            raw_sql := node.raw_sql
            depends_on_nodes := []
            depends_on_m := []
            unique_id := node_path
            config := config_dict
            empty := tmplEmpty node.raw_sql
            fqn := fqn
            tags := tags }

/-!
## The schema test generator (src/dbt/parser.py lines 19-63, 344-411)

The SQL templates below are the module constants, with `{…}`
placeholders written with escaped braces; `pyFormat1` is Python
`str.format` for one named placeholder (all occurrences replaced).
-/

/-- QUERY_VALIDATE_NOT_NULL (src/dbt/parser.py lines 19-25). -/
def QUERY_VALIDATE_NOT_NULL : String :=
  "\nwith validation as (\n  select \x7bfield\x7d as f\n  from \x7bref\x7d\n)\nselect count(*) from validation where f is null\n"

/-- QUERY_VALIDATE_UNIQUE (src/dbt/parser.py lines 28-38). -/
def QUERY_VALIDATE_UNIQUE : String :=
  "\nwith validation as (\n  select \x7bfield\x7d as f\n  from \x7bref\x7d\n  where \x7bfield\x7d is not null\n),\nvalidation_errors as (\n    select f from validation group by f having count(*) > 1\n)\nselect count(*) from validation_errors\n"

/-- QUERY_VALIDATE_ACCEPTED_VALUES (src/dbt/parser.py lines 41-50). -/
def QUERY_VALIDATE_ACCEPTED_VALUES : String :=
  "\nwith all_values as (\n  select distinct \x7bfield\x7d as f\n  from \x7bref\x7d\n),\nvalidation_errors as (\n    select f from all_values where f not in (\x7bvalues_csv\x7d)\n)\nselect count(*) from validation_errors\n"

/-- QUERY_VALIDATE_REFERENTIAL_INTEGRITY (src/dbt/parser.py lines
53-63). -/
def QUERY_VALIDATE_REFERENTIAL_INTEGRITY : String :=
  "\nwith parent as (\n  select \x7bparent_field\x7d as id\n  from \x7bparent_ref\x7d\n), child as (\n  select \x7bchild_field\x7d as id\n  from \x7bchild_ref\x7d\n)\nselect count(*) from child\nwhere id not in (select id from parent) and id is not null\n"

/-- Python `tpl.format(key=val)` for a single named placeholder
(all occurrences replaced, leftmost first). -/
def pyFormat1 (tpl key val : String) : String :=
  String.mk (listReplace tpl.data ("\x7b" ++ key ++ "\x7d").data val.data)

/-- The `{{ref('model')}}` string parse_schema_test splices into the
query templates (source spelling, no spaces). -/
def refString (model : String) : String :=
  "\x7b\x7bref('" ++ model ++ "')\x7d\x7d"

/-- QUERY_VALIDATE_NOT_NULL.format(ref=…, field=…). -/
def formatNotNull (refS field : String) : String :=
  pyFormat1 (pyFormat1 QUERY_VALIDATE_NOT_NULL "field" field) "ref" refS

/-- The not_null query in parsed template form: the formatted string
with its single `{{ref('model')}}` expression as a `refCall`. -/
def notNullTmpl (model field : String) : Tmpl :=
  [ .text ("\nwith validation as (\n  select " ++ field ++ " as f\n  from "),
    .refCall [model],
    .text "\n)\nselect count(*) from validation where f is null\n" ]

/-- The unique query in parsed template form. -/
def uniqueTmpl (model field : String) : Tmpl :=
  [ .text ("\nwith validation as (\n  select " ++ field ++ " as f\n  from "),
    .refCall [model],
    .text ("\n  where " ++ field ++ " is not null\n),\nvalidation_errors as (\n    select f from validation group by f having count(*) > 1\n)\nselect count(*) from validation_errors\n") ]

/-- The accepted_values query in parsed template form. -/
def acceptedValuesTmpl (model field values_csv : String) : Tmpl :=
  [ .text ("\nwith all_values as (\n  select distinct " ++ field ++ " as f\n  from "),
    .refCall [model],
    .text ("\n),\nvalidation_errors as (\n    select f from all_values where f not in (" ++ values_csv ++ ")\n)\nselect count(*) from validation_errors\n") ]

/-- The relationships query in parsed template form (parent block
first, as in QUERY_VALIDATE_REFERENTIAL_INTEGRITY). -/
def relationshipsTmpl (childField model parentField parentModel : String) : Tmpl :=
  [ .text ("\nwith parent as (\n  select " ++ parentField ++ " as id\n  from "),
    .refCall [parentModel],
    .text ("\n), child as (\n  select " ++ childField ++ " as id\n  from "),
    .refCall [model],
    .text "\n)\nselect count(*) from child\nwhere id not in (select id from parent) and id is not null\n" ]

/-- Modelled from the spec: `dbt.utils.get_pseudo_test_path` is not in
src/; section 4.3 requires a deterministic pseudo-path derived from
the originating YAML file path and the test name.  We place the test
under a kind-named directory next to the originating file. -/
def get_pseudo_test_path (name path kind : String) : String :=
  String.intercalate "/" ((split_path path).dropLast ++ [kind, name ++ ".sql"])

/-- The fields of the `test` dict that parse_schema_test reads from
its `test_base` argument (built by load_and_parse_yml). -/
structure SchemaTestBase where
  path : String
  root_path : String
  resource_type : String
  package_name : String

/-- Python list values for the `values` entry of an accepted_values
config: `"','".join([str(v) for v in …])`. -/
def valuesCsv (vs : List PVal) : String :=
  "'" ++ String.intercalate "','" (vs.map pvalStr) ++ "'"

/-- The branch arm of `parse_schema_test` (src/dbt/parser.py lines
347-388), computing the query template and the name key, in source
order:

* `not_null` / `unique`: format the query with `ref("{{ref('model')}}")`
  and `field=test_config`; `name_key = test_config`.
* `relationships`: a non-dict config returns None (no node, no raise);
  otherwise the `from`/`field`/`to` entries are read with `.get`
  (absent keys give None, rendered "None" by `str.format`).
* `accepted_values`: a non-dict config returns None; `field` defaults
  to the empty string, `values` to the empty list;
  `name_key = test_config.get('field')`.
* any other test type raises ValidationException. -/
def parse_schema_test_branch (model_name : String) (test_config : PVal)
    (test_type : String) : Except DbtErr (Option (Tmpl × String)) :=
  if test_type = "not_null" then
    .ok (some (notNullTmpl model_name (pvalStr test_config), pvalStr test_config))
  else if test_type = "unique" then
    .ok (some (uniqueTmpl model_name (pvalStr test_config), pvalStr test_config))
  else if test_type = "relationships" then
    match test_config with
    | .table cfg =>
        let child_field := pvalStr ((dictGet cfg "from").getD .null)
        let parent_field := pvalStr ((dictGet cfg "field").getD .null)
        let parent_model := pvalStr ((dictGet cfg "to").getD .null)
        .ok (some (relationshipsTmpl child_field model_name parent_field parent_model,
                   child_field ++ "_to_" ++ parent_model ++ "_" ++ parent_field))
    | _ => .ok none
  else if test_type = "accepted_values" then
    match test_config with
    | .table cfg =>
        let field := pvalStr ((dictGet cfg "field").getD (.str ""))
        let vs := match dictGet cfg "values" with
                  | some (.list xs) => xs
                  | _ => []
        .ok (some (acceptedValuesTmpl model_name field (valuesCsv vs),
                   pvalStr ((dictGet cfg "field").getD .null)))
    | _ => .ok none
  else
    .error (.validationError ("Unknown schema test type " ++ test_type))

/-- The synthetic test name `'{test_type}_{model_name}_{name_key}'`
(src/dbt/parser.py line 390). -/
def schemaTestName (test_type model_name name_key : String) : String :=
  test_type ++ "_" ++ model_name ++ "_" ++ name_key

/-- The raw definition `to_return` that `parse_schema_test` builds for
a surviving branch (src/dbt/parser.py lines 392-402), before it is
fed to `parse_node`. -/
def schemaTestUnparsed (test_base : SchemaTestBase) (model_name : String)
    (test_type name_key : String) (raw_sql : Tmpl) : UnparsedNode :=
  { name := schemaTestName test_type model_name name_key
    resource_type := test_base.resource_type
    package_name := test_base.package_name
    root_path := test_base.root_path
    path := get_pseudo_test_path (schemaTestName test_type model_name name_key)
      test_base.path "schema_test"
    raw_sql := raw_sql }

/-- Embedding of `parse_schema_test` (src/dbt/parser.py lines
344-411): the branch arm (`parse_schema_test_branch`) either skips,
raises, or yields the query and name key; a surviving branch builds
the synthetic definition (`schemaTestUnparsed`) and feeds it through
`parse_node` tagged `{'schema'}` at `get_test_path(package, name)` —
where `parse_node`'s render call raises TypeError (see
`parse_node_render`), so no node is ever returned on this path. -/
def parse_schema_test (test_base : SchemaTestBase) (model_name : String)
    (test_config : PVal) (test_type : String) (cfgSeed : Dict) :
    Except DbtErr (Option ParsedNode) :=
  match parse_schema_test_branch model_name test_config test_type with
  | .error e => .error e
  | .ok none => .ok none
  | .ok (some (raw_sql, name_key)) =>
      (parse_node (schemaTestUnparsed test_base model_name test_type name_key raw_sql)
        (get_test_path test_base.package_name
          (schemaTestName test_type model_name name_key))
        test_base.package_name cfgSeed ["schema"] []).map some

/-!
## execute_model (src/dbt/adapters/default.py lines 121-148)

`execute_model` splits `wrapped_sql` with
`re.split(r'-- (DBT_OPERATION .*)', …)`: the split pieces between the
matches are kept, and the captured group (`DBT_OPERATION ` plus the
rest of the line, `.` not crossing a newline) is inserted between
them.  Each part is then probed with
`re.match(r'^DBT_OPERATION (\x7b.*\x7d)$', part)`: a match dispatches the
decoded instruction through the operation table, any other part is
executed via `add_query`, and the cursor of the last `add_query` is
what `get_status` reports at the end.  Text is modelled as `List Char`
and the two regexes are implemented directly.
-/

/-- A connection dict (src/dbt/adapters/default.py lines 290-297).
The opaque driver handle is a number; `none` is Python `None`. -/
structure Conn where
  ctype : String
  name : String
  state : String
  transaction_open : Bool
  handle : Option Nat
  credentials : Dict
deriving BEq

/-- Adapter-specific members used by the embedded protocol functions:
`cls.type()` and the driver handshake `cls.open_connection`. -/
structure AdapterHooks where
  ctype : String
  openConn : Conn → Conn

/-- The first argument of `get_connection` / `add_query` /
`acquire_connection` is duck-typed in Python: callers pass either a
profile dict or (in `begin`, line 336) a connection dict. -/
inductive ProfArg where
  | prof (p : Dict)
  | conn (c : Conn)

/-- The connection dict as a plain Python dict, for the call sites
that treat a connection as a profile. -/
def connDict (c : Conn) : Dict :=
  [ ("type", .str c.ctype)
  , ("name", .str c.name)
  , ("state", .str c.state)
  , ("transaction_open", .bool c.transaction_open)
  , ("handle", match c.handle with | none => .null | some h => .int h)
  , ("credentials", .table c.credentials) ]

/-- The dict a `ProfArg` stands for. -/
def profDictOf : ProfArg → Dict
  | .prof p => p
  | .conn c => connDict c

/-- The process-wide `connection_cache` keyed by name. -/
abbrev Cache := List (String × Conn)

/-- `connection_cache.get(name)` (a cached connection dict is always
truthy). -/
def cacheGet (cache : Cache) (name : String) : Option Conn :=
  match cache with
  | [] => none
  | (n, c) :: rest => if n = name then some c else cacheGet rest name

/-- `connection_cache[name] = connection`. -/
def cacheSet (cache : Cache) (name : String) (c : Conn) : Cache :=
  match cache with
  | [] => [(name, c)]
  | (n, c') :: rest => if n = name then (name, c) :: rest else (n, c') :: cacheSet rest name c

/-- The connection record `acquire_connection` constructs before the
driver handshake (src/dbt/adapters/default.py lines 285-297):
credentials are a deep copy of the profile with `type` and `threads`
popped, state `init`, no transaction, no handle. -/
def acquireConnectionPre (hooks : AdapterHooks) (profile : ProfArg)
    (name : String) : Conn :=
  let credentials := dictErase (dictErase (profDictOf profile) "type") "threads"
  { ctype := hooks.ctype
    name := name
    state := "init"
    transaction_open := false
    handle := none
    credentials := credentials }

/-- Embedding of `acquire_connection` (lines 280-302).  The pops act
on `copy.deepcopy(profile)`, so the caller's dict is returned
unchanged as the first component; the record is then handed to the
driver handshake `open_connection`. -/
def acquire_connection (hooks : AdapterHooks) (profile : ProfArg)
    (name : String) : ProfArg × Conn :=
  (profile, hooks.openConn (acquireConnectionPre hooks profile name))

/-- Embedding of `get_connection` (lines 260-278): a missing name
defaults to `master`; a cached connection is returned as is;
otherwise one is acquired and cached, and the tail call
`get_connection(profile, name)` returns the newly cached connection.
The third component records whether an acquisition happened. -/
def get_connection (hooks : AdapterHooks) (cache : Cache) (profile : ProfArg)
    (nameOpt : Option String) : Cache × Conn × Bool :=
  let name := nameOpt.getD "master"
  match cacheGet cache name with
  | some c => (cache, c, false)
  | none =>
      let c := (acquire_connection hooks profile name).2
      (cacheSet cache name c, c, true)

/-- Embedding of `add_query` (lines 399-417): resolve the connection
(the `model_name` is the connection name), open a cursor on the handle
(an `AttributeError` if the handle is `None`) and execute the sql.
The cursor is modelled by the sql it executed. -/
def add_query (hooks : AdapterHooks) (cache : Cache) (profile : ProfArg)
    (sql : String) (model_name : Option String) :
    Except DbtErr (Cache × Conn × String) :=
  let r := get_connection hooks cache profile model_name
  match r.2.1.handle with
  | none => .error (.attributeError "cursor on a None handle")
  | some _ => .ok (r.1, r.2.1, sql)

/-- Embedding of `begin` (lines 323-341): fetch the named connection,
raise ProgrammingException if a transaction is already open, issue
`BEGIN` through `add_query` (note the source passes the connection
dict where `add_query` expects a profile, and no model name, so the
`BEGIN` goes to the `master` connection), then set the flag and
re-cache. -/
def DefaultAdapter.begin (hooks : AdapterHooks) (cache : Cache)
    (profile : ProfArg) (name : String) : Except DbtErr (Cache × Conn) :=
  let r := get_connection hooks cache profile (some name)
  let connection := r.2.1
  if connection.transaction_open then
    .error (.programmingError
      ("Tried to begin a new transaction on connection " ++ connection.name ++
        ", but it already had one open!"))
  else
    match add_query hooks r.1 (.conn connection) "BEGIN" none with
    | .error e => .error e
    | .ok (cache2, _, _) =>
        let connection := { connection with transaction_open := true }
        .ok (cacheSet cache2 name connection, connection)

/-- Embedding of `reload` (lines 318-321): re-resolve the canonical
cached connection from the connection's own credentials and name. -/
def DefaultAdapter.reload (hooks : AdapterHooks) (cache : Cache) (connection : Conn) :
    Cache × Conn × Bool :=
  get_connection hooks cache (.prof connection.credentials) (some connection.name)

/-- Embedding of `commit` (lines 343-363): reload the canonical
connection, raise ProgrammingException if no transaction is open,
drive `handle.commit()` (an AttributeError on a `None` handle), clear
the flag and re-cache. -/
def DefaultAdapter.commit (hooks : AdapterHooks) (cache : Cache) (connection : Conn) :
    Except DbtErr (Cache × Conn) :=
  let r := DefaultAdapter.reload hooks cache connection
  let c := r.2.1
  if c.transaction_open = false then
    .error (.programmingError
      ("Tried to commit transaction on connection " ++ c.name ++
        ", but it does not have one open!"))
  else
    match c.handle with
    | none => .error (.attributeError "commit on a None handle")
    | some _ =>
        let c := { c with transaction_open := false }
        .ok (cacheSet r.1 c.name c, c)

/-- Embedding of `rollback` (lines 365-383); identical to `commit`
except that the driver call is `handle.rollback()`. -/
def DefaultAdapter.rollback (hooks : AdapterHooks) (cache : Cache) (connection : Conn) :
    Except DbtErr (Cache × Conn) :=
  let r := DefaultAdapter.reload hooks cache connection
  let c := r.2.1
  if c.transaction_open = false then
    .error (.programmingError
      ("Tried to rollback transaction on connection " ++ c.name ++
        ", but it does not have one open!"))
  else
    match c.handle with
    | none => .error (.attributeError "rollback on a None handle")
    | some _ =>
        let c := { c with transaction_open := false }
        .ok (cacheSet r.1 c.name c, c)

/-!
## get_missing_columns (src/dbt/adapters/default.py lines 150-167)
-/

/-- A column row from the information-schema introspection
(src/dbt/schema.py is not in src/; the spec fixes the three
attributes, section 3). -/
structure Column where
  name : String
  data_type : String
  char_size : Option Nat
deriving DecidableEq

/-- Python `d[k] = v` for column dicts (replace in place or append). -/
def colSet (d : List (String × Column)) (k : String) (v : Column) :
    List (String × Column) :=
  match d with
  | [] => [(k, v)]
  | (k', v') :: rest => if k' = k then (k, v) :: rest else (k', v') :: colSet rest k v

/-- The dict comprehension `{col.name: col for col in cols}`. -/
def colsDict (cols : List Column) : List (String × Column) :=
  cols.foldl (fun d c => colSet d c.name c) []

/-- Embedding of `get_missing_columns` (lines 150-167): build the two
name-keyed dicts, take the set difference of the key sets, and return
the from-table columns whose names fall in the difference, in dict
order.  The introspection results (`get_columns_in_table`) enter as
the two column lists. -/
def get_missing_columns (fromCols toCols : List Column) : List Column :=
  ((colsDict fromCols).filter
    (fun e => (((colsDict fromCols).map Prod.fst).filter
        (fun n => !((colsDict toCols).map Prod.fst).contains n)).contains e.1)).map
    Prod.snd

/-!
## Concrete inputs used by the claim theorems and witnesses
-/

/-- The spec's end-to-end model: package `analytics`, body
`select * from {{ ref('raw_orders') }}`. -/
def ordersUnparsed : UnparsedNode :=
  { name := "orders"
    package_name := "analytics"
    path := "models/orders.sql"
    root_path := "/projects/analytics"
    resource_type := NodeType.Model
    raw_sql := [.text "select * from ", .refCall ["raw_orders"], .text "\n"] }

/-- A model whose body applies a name the discovery context does not
bind (`{{ env('SCHEMA') }}`-style call on an undefined name). -/
def envUnparsed : UnparsedNode :=
  { name := "m"
    package_name := "analytics"
    path := "models/m.sql"
    root_path := "/projects/analytics"
    resource_type := NodeType.Model
    raw_sql := [.text "select * from ", .undefOpp "env"] }

/-- The schema-YAML test base produced by load_and_parse_yml for
`models/schema.yml` of package `analytics`. -/
def schemaBase0 : SchemaTestBase :=
  { path := "models/schema.yml"
    root_path := "/projects/analytics"
    resource_type := NodeType.Test
    package_name := "analytics" }

/-- Morbid profile for the connection examples: `type` and `threads`
are the keys `acquire_connection` must strip. -/
def prof0 : Dict :=
  [("type", .str "postgres"), ("threads", .int 4), ("schema", .str "public")]

/-- Adapter hooks for the examples: the handshake marks the connection
open and installs handle 1 (modelled from the spec, section 4.5). -/
def hooks0 : AdapterHooks :=
  { ctype := "postgres"
    openConn := fun c => { c with state := "open", handle := some 1 } }

/-- The connection `hooks0` yields from `prof0`. -/
def acq0 : Conn :=
  { ctype := "postgres"
    name := "master"
    state := "open"
    transaction_open := false
    handle := some 1
    credentials := [("schema", .str "public")] }

/-- A cache holding an open master connection. -/
def cache0 : Cache := [("master", acq0)]

/-- Columns `a`, `b`, `c` of the from-table. -/
def fromCols0 : List Column :=
  [ { name := "a", data_type := "text", char_size := none }
  , { name := "b", data_type := "text", char_size := none }
  , { name := "c", data_type := "text", char_size := none } ]

/-- Columns `a`, `c` of the to-table. -/
def toCols0 : List Column :=
  [ { name := "a", data_type := "text", char_size := none }
  , { name := "c", data_type := "text", char_size := none } ]

/-!
## Claim theorems

Parser claims first, then the execute_model stack, then the connection
protocol and the column reconciliation.
-/

/-- C1: the claim states that parse_node records a `ref('X')`
dependency during the discovery render, so that the returned node's
`depends_on.nodes` contains the referenced unique id.  The code cannot
do this, twice over: the context binds `ref` to `lambda *args: ''`
(src/dbt/parser.py line 189), which records nothing (the render model
accordingly has no dependency output at all), and the render call
itself passes `capture_macros=True`, a keyword the `get_rendered` of
src/dbt/clients/jinja.py does not declare, so every `parse_node` call
raises `TypeError` at that call site (see `parse_node_render`).  This
theorem evaluates the embedded parse_node: every call — and in
particular the claim's own example, the model `orders` of package
`analytics` referencing `raw_orders` — raises `TypeError`, so no node
carrying `depends_on.nodes = {model.analytics.raw_orders}` is ever
returned. -/
theorem parse_node_discovery_render_records_no_ref_dependency :
    parse_node ordersUnparsed (get_path NodeType.Model "analytics" "orders")
        "analytics" [] [] [] =
      .error (.typeError
        "get_rendered() got an unexpected keyword argument 'capture_macros'") ∧
    ∀ (node : UnparsedNode) (node_path packageName : String) (cfgSeed : Dict)
      (tags fqn_extra : List String),
      parse_node node node_path packageName cfgSeed tags fqn_extra =
        .error (.typeError
          "get_rendered() got an unexpected keyword argument 'capture_macros'") :=
  ⟨rfl, fun _ _ _ _ _ _ => rfl⟩

/-- C2: the claim states that during parse_node's dependency-discovery
render an access to an undefined name does not raise and instead
invokes the diagnostic callback.  The silent-undefined machinery of
`get_undefined_value` does behave as the claim describes — the third
conjunct shows the silent render completing and recording the callback
invocation `(node, 'env')` — but parse_node never engages it: its
render call passes `capture_macros=True` instead of
`silent_on_undefined=True`, so the call literally raises `TypeError`
(first conjunct), and even taken modulo that keyword the render would
run under the default strict environment, where the operation on the
unbound name `env` raises an `UndefinedError` converted into a
compiler error with no callback (second conjunct). -/
theorem parse_node_strict_render_raises_on_undefined_operation :
    parse_node envUnparsed (get_path NodeType.Model "analytics" "m")
        "analytics" [] [] [] =
      .error (.typeError
        "get_rendered() got an unexpected keyword argument 'capture_macros'") ∧
    get_rendered false "m" envUnparsed.raw_sql =
      .error (.compilerError "m" "env is undefined") ∧
    get_rendered true "m" envUnparsed.raw_sql =
      .ok { out := "select * from None", cfgCalls := [], diags := [("m", "env")] } :=
  ⟨rfl, rfl, rfl⟩

/-- C7: for schema YAML `orders: {constraints: {not_null: [order_id]}}`
the generator's branch synthesizes exactly the claimed definition —
the not_null query over `ref('orders')`/`order_id` with name key
`order_id`, the synthetic name `not_null_orders_order_id` (pattern
`{testType}_{modelName}_{nameKey}`), resource type Test, and raw SQL
equal to QUERY_VALIDATE_NOT_NULL formatted with `{{ref('orders')}}`
and `order_id` (the count of null `order_id` rows, passing iff zero) —
but `parse_schema_test` then feeds that definition to `parse_node`,
whose render call raises `TypeError` (see `parse_node_render`), so the
node the claim describes is never returned (last conjunct). -/
theorem parse_schema_test_not_null_orders :
    parse_schema_test_branch "orders" (.str "order_id") "not_null" =
      .ok (some (notNullTmpl "orders" "order_id", "order_id")) ∧
    schemaTestName "not_null" "orders" "order_id" = "not_null_orders_order_id" ∧
    (schemaTestUnparsed schemaBase0 "orders" "not_null" "order_id"
        (notNullTmpl "orders" "order_id")).name = "not_null_orders_order_id" ∧
    (schemaTestUnparsed schemaBase0 "orders" "not_null" "order_id"
        (notNullTmpl "orders" "order_id")).resource_type = NodeType.Test ∧
    rawText (notNullTmpl "orders" "order_id") =
      formatNotNull (refString "orders") "order_id" ∧
    parse_schema_test schemaBase0 "orders" (.str "order_id") "not_null" [] =
      .error (.typeError
        "get_rendered() got an unexpected keyword argument 'capture_macros'") :=
  ⟨rfl, rfl, rfl, rfl, rfl, rfl⟩

/-- C8: parse_schema_test skips (returns no node, without raising) a
relationships or accepted_values config that is not a mapping, and
raises ValidationException for every test type other than not_null,
unique, relationships and accepted_values (src/dbt/parser.py lines
357-359, 374-376, 386-388). -/
theorem parse_schema_test_skips_and_rejects
    (base : SchemaTestBase) (model : String) (cfg : PVal) (t : String)
    (seed : Dict) :
    (cfg.isTable = false →
      parse_schema_test base model cfg "relationships" seed = .ok none ∧
      parse_schema_test base model cfg "accepted_values" seed = .ok none) ∧
    (t ≠ "not_null" → t ≠ "unique" → t ≠ "relationships" → t ≠ "accepted_values" →
      parse_schema_test base model cfg t seed =
        .error (.validationError ("Unknown schema test type " ++ t))) := by
  constructor
  · intro hcfg
    constructor
    · cases cfg <;>
        simp_all [parse_schema_test, parse_schema_test_branch, PVal.isTable]
    · cases cfg <;>
        simp_all [parse_schema_test, parse_schema_test_branch, PVal.isTable]
  · intro h1 h2 h3 h4
    simp [parse_schema_test, parse_schema_test_branch, h1, h2, h3, h4]

/-- Witness for C8 at a concrete input: a string config is skipped by
both shape-checked test types, and the unknown type `foo` raises. -/
theorem parse_schema_test_skips_and_rejects_witness :
    (parse_schema_test schemaBase0 "orders" (.str "x") "relationships" [] = .ok none ∧
     parse_schema_test schemaBase0 "orders" (.str "x") "accepted_values" [] = .ok none) ∧
    parse_schema_test schemaBase0 "orders" (.str "x") "foo" [] =
      .error (.validationError "Unknown schema test type foo") := by
  obtain ⟨h1, h2⟩ :=
    parse_schema_test_skips_and_rejects schemaBase0 "orders" (.str "x") "foo" []
  exact ⟨h1 rfl, h2 (by decide) (by decide) (by decide) (by decide)⟩

/-! Helper lemmas about `hasLead`, `takeLine` and list endpoints, used
to characterise the marker split. -/

theorem dropLast_headQ {α : Type} (l : List α) :
    l.dropLast.head? = if l.length ≤ 1 then none else l.head? := by
  match l with
  | [] => simp
  | [a] => simp
  | a :: b :: t =>
      have hlen : ¬ (a :: b :: t).length ≤ 1 := by simp
      simp [List.dropLast, hlen]

theorem cacheGet_cacheSet (cache : Cache) (name : String) (c : Conn) :
    cacheGet (cacheSet cache name c) name = some c := by
  induction cache with
  | nil => simp [cacheSet, cacheGet]
  | cons p rest ih =>
      obtain ⟨n, c'⟩ := p
      by_cases h : n = name
      · simp [cacheSet, cacheGet, h]
      · simp [cacheSet, cacheGet, h, ih]

/-- C5: on a cached connection (with an open master connection for the
`BEGIN` statement to run on), `begin` raises ProgrammingException when
`transaction_open` is already true and otherwise sets the flag and
re-caches; `commit` and `rollback` raise ProgrammingException when the
(reloaded, cached) connection has `transaction_open` false, and
otherwise clear the flag and re-cache
(src/dbt/adapters/default.py lines 323-383). -/
theorem transaction_protocol_begin_commit_rollback
    (hooks : AdapterHooks) (cache : Cache) (p : ProfArg) (name : String)
    (c mc : Conn) (hcn hmn : Nat)
    (h1 : cacheGet cache name = some c)
    (h5 : c.name = name)
    (h2 : cacheGet cache "master" = some mc)
    (h3 : mc.handle = some hmn)
    (h4 : c.handle = some hcn) :
    (c.transaction_open = true →
      DefaultAdapter.begin hooks cache p name =
        .error (.programmingError
          ("Tried to begin a new transaction on connection " ++ c.name ++
            ", but it already had one open!"))) ∧
    (c.transaction_open = false →
      DefaultAdapter.begin hooks cache p name =
        .ok (cacheSet cache name { c with transaction_open := true },
             { c with transaction_open := true }) ∧
      cacheGet (cacheSet cache name { c with transaction_open := true }) name =
        some { c with transaction_open := true }) ∧
    (c.transaction_open = false →
      DefaultAdapter.commit hooks cache c =
        .error (.programmingError
          ("Tried to commit transaction on connection " ++ c.name ++
            ", but it does not have one open!")) ∧
      DefaultAdapter.rollback hooks cache c =
        .error (.programmingError
          ("Tried to rollback transaction on connection " ++ c.name ++
            ", but it does not have one open!"))) ∧
    (c.transaction_open = true →
      DefaultAdapter.commit hooks cache c =
        .ok (cacheSet cache c.name { c with transaction_open := false },
             { c with transaction_open := false }) ∧
      DefaultAdapter.rollback hooks cache c =
        .ok (cacheSet cache c.name { c with transaction_open := false },
             { c with transaction_open := false }) ∧
      cacheGet (cacheSet cache c.name { c with transaction_open := false })
          c.name =
        some { c with transaction_open := false }) := by
  refine ⟨?_, ?_, ?_, ?_⟩
  · intro ht
    simp [DefaultAdapter.begin, get_connection, h1, ht]
  · intro ht
    refine ⟨?_, cacheGet_cacheSet cache name _⟩
    simp [DefaultAdapter.begin, add_query, get_connection, h1, h2, h3, ht]
  · intro ht
    constructor
    · simp [DefaultAdapter.commit, DefaultAdapter.reload, get_connection, h5, h1, ht]
    · simp [DefaultAdapter.rollback, DefaultAdapter.reload, get_connection, h5, h1, ht]
  · intro ht
    refine ⟨?_, ?_, cacheGet_cacheSet cache c.name _⟩
    · simp [DefaultAdapter.commit, DefaultAdapter.reload, get_connection, h5, h1,
        ht, h4]
    · simp [DefaultAdapter.rollback, DefaultAdapter.reload, get_connection, h5, h1,
        ht, h4]

/-- Witness for C5 on the concrete open master connection `acq0`. -/
theorem transaction_protocol_begin_commit_rollback_witness :
    (acq0.transaction_open = true →
      DefaultAdapter.begin hooks0 cache0 (.prof prof0) "master" =
        .error (.programmingError
          ("Tried to begin a new transaction on connection " ++ acq0.name ++
            ", but it already had one open!"))) ∧
    (acq0.transaction_open = false →
      DefaultAdapter.begin hooks0 cache0 (.prof prof0) "master" =
        .ok (cacheSet cache0 "master" { acq0 with transaction_open := true },
             { acq0 with transaction_open := true }) ∧
      cacheGet (cacheSet cache0 "master" { acq0 with transaction_open := true })
          "master" =
        some { acq0 with transaction_open := true }) ∧
    (acq0.transaction_open = false →
      DefaultAdapter.commit hooks0 cache0 acq0 =
        .error (.programmingError
          ("Tried to commit transaction on connection " ++ acq0.name ++
            ", but it does not have one open!")) ∧
      DefaultAdapter.rollback hooks0 cache0 acq0 =
        .error (.programmingError
          ("Tried to rollback transaction on connection " ++ acq0.name ++
            ", but it does not have one open!"))) ∧
    (acq0.transaction_open = true →
      DefaultAdapter.commit hooks0 cache0 acq0 =
        .ok (cacheSet cache0 acq0.name { acq0 with transaction_open := false },
             { acq0 with transaction_open := false }) ∧
      DefaultAdapter.rollback hooks0 cache0 acq0 =
        .ok (cacheSet cache0 acq0.name { acq0 with transaction_open := false },
             { acq0 with transaction_open := false }) ∧
      cacheGet (cacheSet cache0 acq0.name { acq0 with transaction_open := false })
          acq0.name =
        some { acq0 with transaction_open := false }) :=
  transaction_protocol_begin_commit_rollback hooks0 cache0 (.prof prof0) "master"
    acq0 acq0 1 1 rfl rfl rfl rfl rfl

/-- C6: a second `get_connection` with the same name returns the very
connection cached by the first call, with an unchanged cache and no
new acquisition — idempotence by name
(src/dbt/adapters/default.py lines 260-278). -/
theorem get_connection_idempotent_by_name (hooks : AdapterHooks) (cache : Cache)
    (p p2 : ProfArg) (name : String) (cache1 : Cache) (c : Conn) (acq : Bool)
    (h : get_connection hooks cache p (some name) = (cache1, c, acq)) :
    get_connection hooks cache1 p2 (some name) = (cache1, c, false) := by
  have hc : cacheGet cache1 name = some c := by
    cases hg : cacheGet cache name with
    | some c0 =>
        have h0 : get_connection hooks cache p (some name) = (cache, c0, false) := by
          simp [get_connection, hg]
        rw [h0] at h
        simp only [Prod.mk.injEq] at h
        rw [← h.1, hg, h.2.1]
    | none =>
        have h0 : get_connection hooks cache p (some name) =
            (cacheSet cache name (acquire_connection hooks p name).2,
             (acquire_connection hooks p name).2, true) := by
          simp [get_connection, hg]
        rw [h0] at h
        simp only [Prod.mk.injEq] at h
        rw [← h.1, cacheGet_cacheSet, h.2.1]
  simp [get_connection, hc]

/-- Witness for C6: after a first call on the empty cache acquires and
caches `acq0`, the second call returns it unchanged without acquiring. -/
theorem get_connection_idempotent_by_name_witness :
    get_connection hooks0 [("master", acq0)] (.prof prof0) (some "master") =
      ([("master", acq0)], acq0, false) :=
  get_connection_idempotent_by_name hooks0 [] (.prof prof0) (.prof prof0) "master"
    [("master", acq0)] acq0 true rfl

/-- C10: `acquire_connection` leaves the caller's profile unchanged
(the pops act on a deep copy), and the record it constructs before
`open_connection` runs has state `init`, `transaction_open` false, a
null handle, the adapter's type, and credentials equal to the profile
with exactly the `type` and `threads` keys removed
(src/dbt/adapters/default.py lines 280-302). -/
theorem acquire_connection_preserves_profile_and_inits
    (hooks : AdapterHooks) (p : Dict) (name k : String) :
    (acquire_connection hooks (.prof p) name).1 = .prof p ∧
    (acquire_connection hooks (.prof p) name).2 =
      hooks.openConn (acquireConnectionPre hooks (.prof p) name) ∧
    acquireConnectionPre hooks (.prof p) name =
      { ctype := hooks.ctype, name := name, state := "init",
        transaction_open := false, handle := none,
        credentials := dictErase (dictErase p "type") "threads" } ∧
    dictGet (acquireConnectionPre hooks (.prof p) name).credentials k =
      (if k = "type" ∨ k = "threads" then none else dictGet p k) := by
  refine ⟨rfl, rfl, rfl, ?_⟩
  show dictGet (dictErase (dictErase (profDictOf (.prof p)) "type") "threads") k = _
  rw [dictGet_dictErase, dictGet_dictErase]
  by_cases hk1 : k = "threads" <;> by_cases hk2 : k = "type" <;>
    simp [hk1, hk2, profDictOf]

theorem colSet_fresh (d : List (String × Column)) (k : String) (v : Column)
    (h : k ∉ d.map Prod.fst) : colSet d k v = d ++ [(k, v)] := by
  induction d with
  | nil => rfl
  | cons e rest ih =>
      obtain ⟨k', v'⟩ := e
      simp only [List.map_cons, List.mem_cons] at h
      push_neg at h
      obtain ⟨hne, hrest⟩ := h
      have hne' : ¬ k' = k := fun he => hne he.symm
      simp [colSet, hne', ih hrest]

theorem colsDictAux (cols : List Column) :
    ∀ acc : List (String × Column),
      (cols.map Column.name).Nodup →
      (∀ c ∈ cols, c.name ∉ acc.map Prod.fst) →
      cols.foldl (fun d c => colSet d c.name c) acc =
        acc ++ cols.map (fun c => (c.name, c)) := by
  induction cols with
  | nil =>
      intro acc _ _
      simp
  | cons c t ih =>
      intro acc hnd hfresh
      simp only [List.map_cons, List.nodup_cons] at hnd
      obtain ⟨hnotin, hnd'⟩ := hnd
      simp only [List.foldl_cons]
      rw [colSet_fresh acc c.name c (hfresh c (List.mem_cons_self _ _))]
      rw [ih (acc ++ [(c.name, c)]) hnd' ?_]
      · simp
      · intro x hx
        simp only [List.map_append, List.mem_append]
        push_neg
        constructor
        · exact hfresh x (List.mem_cons_of_mem _ hx)
        · intro hmem
          simp at hmem
          exact hnotin (hmem ▸ List.mem_map_of_mem Column.name hx)

theorem colsDict_eq_map (cols : List Column)
    (h : (cols.map Column.name).Nodup) :
    colsDict cols = cols.map (fun c => (c.name, c)) := by
  have := colsDictAux cols [] h (by simp)
  simpa [colsDict] using this

theorem colSet_keys_mem (d : List (String × Column)) (k : String) (v : Column)
    (n : String) :
    n ∈ (colSet d k v).map Prod.fst ↔ (n ∈ d.map Prod.fst ∨ n = k) := by
  induction d with
  | nil => simp [colSet]
  | cons e rest ih =>
      obtain ⟨k', v'⟩ := e
      by_cases h : k' = k
      · subst h
        simp [colSet]
        tauto
      · simp [colSet, h, ih]
        tauto

theorem colsDict_keys_mem (cols : List Column) (n : String) :
    n ∈ (colsDict cols).map Prod.fst ↔ n ∈ cols.map Column.name := by
  have haux : ∀ (cs : List Column) (acc : List (String × Column)),
      (n ∈ (cs.foldl (fun d c => colSet d c.name c) acc).map Prod.fst ↔
        n ∈ acc.map Prod.fst ∨ n ∈ cs.map Column.name) := by
    intro cs
    induction cs with
    | nil =>
        intro acc
        simp
    | cons c t ih =>
        intro acc
        simp only [List.foldl_cons, List.map_cons, List.mem_cons]
        rw [ih (colSet acc c.name c), colSet_keys_mem]
        tauto
  have := haux cols []
  simpa [colsDict] using this

theorem contains_congr (l1 l2 : List String) (n : String)
    (h : n ∈ l1 ↔ n ∈ l2) : l1.contains n = l2.contains n := by
  cases hc : l2.contains n with
  | true => exact List.elem_eq_true_of_mem (h.mpr (List.elem_iff.mp hc))
  | false =>
      have hn2 : n ∉ l2 := fun hm => by
        have hc2 : List.elem n l2 = false := hc
        rw [List.elem_eq_true_of_mem hm] at hc2
        exact absurd hc2 (by simp)
      have hn1 : n ∉ l1 := fun hm => hn2 (h.mp hm)
      cases hc1 : l1.contains n with
      | false => rfl
      | true => exact absurd (List.elem_iff.mp hc1) hn1

theorem contains_filter_elem (p : String → Bool) (l : List String) (a : String)
    (ha : a ∈ l) : (l.filter p).contains a = p a := by
  cases hp : p a with
  | true => exact List.elem_eq_true_of_mem (List.mem_filter.mpr ⟨ha, hp⟩)
  | false =>
      cases hc : (l.filter p).contains a with
      | false => rfl
      | true =>
          have hm := (List.mem_filter.mp (List.elem_iff.mp hc)).2
          rw [hp] at hm
          exact absurd hm (by simp)

theorem contains_filter_cons_ne (p : String → Bool) (b : String) (l : List String)
    (a : String) (hne : a ≠ b) :
    ((b :: l).filter p).contains a = (l.filter p).contains a := by
  cases hp : p b with
  | true => simp [List.filter_cons, hp, List.contains_cons, hne]
  | false => simp [List.filter_cons, hp]

theorem map_filter_snd (tN : String → Bool) (f : List Column) :
    ((f.map (fun c => (c.name, c))).filter (fun e => !tN e.1)).map Prod.snd =
      f.filter (fun c => !tN c.name) := by
  induction f with
  | nil => rfl
  | cons c t ih =>
      simp only [List.map_cons, List.filter_cons]
      cases htn : tN c.name with
      | true => simpa [htn] using ih
      | false => simp [htn, ih]

theorem missing_filter_eq (tN : String → Bool) (f : List Column) :
    ((f.map (fun c => (c.name, c))).filter
        (fun e => (((f.map Column.name).filter (fun n => !tN n)).contains e.1))).map
      Prod.snd = f.filter (fun c => !tN c.name) := by
  have hcong : (f.map (fun c => (c.name, c))).filter
        (fun e => (((f.map Column.name).filter (fun n => !tN n)).contains e.1)) =
      (f.map (fun c => (c.name, c))).filter (fun e => !tN e.1) := by
    apply List.filter_congr
    intro e he
    obtain ⟨x, hx, hxe⟩ := List.mem_map.mp he
    have hmem : e.1 ∈ f.map Column.name := by
      rw [← hxe]
      exact List.mem_map_of_mem Column.name hx
    exact contains_filter_elem _ _ _ hmem
  rw [hcong, map_filter_snd]

/-- C9: with distinct from-table column names, `get_missing_columns`
returns exactly the columns of the from-table whose names do not occur
among the to-table's column names
(src/dbt/adapters/default.py lines 150-167). -/
theorem get_missing_columns_name_set_difference (fromCols toCols : List Column)
    (h : (fromCols.map Column.name).Nodup) :
    get_missing_columns fromCols toCols =
      fromCols.filter (fun c => !((toCols.map Column.name).contains c.name)) := by
  unfold get_missing_columns
  rw [colsDict_eq_map fromCols h]
  have hkeys : (fromCols.map (fun c => (c.name, c))).map Prod.fst =
      fromCols.map Column.name := by
    rw [List.map_map]
    rfl
  rw [hkeys]
  have hto : ∀ n, ((colsDict toCols).map Prod.fst).contains n =
      ((toCols.map Column.name).contains n) := fun n =>
    contains_congr _ _ n (colsDict_keys_mem toCols n)
  simp only [hto]
  exact missing_filter_eq (fun n => (toCols.map Column.name).contains n) fromCols

/-- Witness for C9: from-table columns a, b, c against to-table
columns a, c leave exactly column b. -/
theorem get_missing_columns_name_set_difference_witness :
    get_missing_columns fromCols0 toCols0 =
      [{ name := "b", data_type := "text", char_size := none }] := by
  rw [get_missing_columns_name_set_difference fromCols0 toCols0 (by decide)]
  decide
